import Mathlib

/-!
Shallow embedding of the CSplan authentication and key-custody core
(classes LoginActions and RegisterActions).

Conventions of the embedding:

* Byte sequences are `List Nat`.  The base64-style `encode`/`decode` codec at
  the network boundary is a bijection between byte arrays and their string
  encodings; it is treated as the identity coercion, so fields that the code
  stores encoded (challenge data and salt, register key, hash salt) are
  modelled directly as `Bytes`.
* Opaque platform key handles (`CryptoKey` objects) are modelled as `Nat`
  handles: they can only cross the network after an explicit export or wrap
  call, exactly as in the platform API.
* Effectful steps (worker messages, fetches, localStorage and store writes,
  IndexedDB puts, console logging) are recorded in an event trace.  Each
  operation returns an `Outcome`: a result (`Except String`, the thrown
  message on failure), the final object/session state, and the trace.
* The server and the cryptographic primitives are an explicit environment
  `ServerEnv`: response statuses and bodies for each endpoint, the argon2
  worker reply as a function of the hash request, and the cipher/RSA
  primitives as abstract functions.
* The non-null assertion on the stored key material (`this.authKeyMaterial!`)
  followed by `crypto.subtle.importKey` is modelled faithfully: importing
  null key material rejects with a type error.
-/

abbrev Bytes := List Nat

structure Argon2HashParams where
  type : String
  timeCost : Nat
  memoryCost : Nat
  threads : Nat
  saltLen : Nat
  deriving Repr, DecidableEq

structure Challenge where
  id : String
  data : Bytes
  salt : Bytes
  hashParams : Argon2HashParams
  deriving Repr, DecidableEq

structure ChallengeResponse where
  id : String
  CSRFtoken : String
  deriving Repr, DecidableEq

structure MasterKeys where
  publicKey : String
  privateKey : String
  hashSalt : Bytes
  hashParams : Argon2HashParams
  deriving Repr, DecidableEq

structure AuthUser where
  email : String
  password : String
  totp : Option Nat
  deriving Repr, DecidableEq

structure User where
  email : String
  id : String
  deriving Repr, DecidableEq

inductive AuthConditions where
  | Success
  | TOTPRequired
  deriving Repr, DecidableEq

/-- Observable effects of the embedded operations, in program order. -/
inductive Event where
  | workerHash (password : String) (salt : Bytes)
      (timeCost memoryCost threads hashLen : Nat)
  | postChallengeRequest (email : String) (totp : Option Nat)
  | importAuthKey (material : Option Bytes)
  | decryptChallenge (key counter payload : Bytes)
  | postSolvedChallenge (challengeId : String) (data : Bytes)
  | setCSRFtoken (token : String)
  | storeLogin (email id : String)
  | postRegister (email : String) (key : Bytes) (hp : Argon2HashParams)
  | getKeys
  | consoleLog (s : String)
  | postKeys (publicKey privateKey : String) (hashSalt : Bytes) (hp : Argon2HashParams)
  | idbAddKeys (id : String) (publicKey privateKey : Nat)
  deriving Repr, DecidableEq

/-- Mutable state of a LoginActions object together with the ambient session
state (svelte user store, localStorage CSRF token). -/
structure LoginState where
  hashParams : Argon2HashParams
  authKeyMaterial : Option Bytes
  csrfToken : Option String
  userStore : Option User
  deriving Repr, DecidableEq

structure Outcome (α : Type) where
  result : Except String α
  state : LoginState
  trace : List Event
  deriving Repr

/-- Environment: server responses per endpoint, the argon2 worker reply as a
function of the request, and the cryptographic primitives. -/
structure ServerEnv where
  argon2 : String → Bytes → Nat × Bytes
  challengeStatus : Nat
  challengeError : Option String
  challenge : Challenge
  submitStatus : Nat
  submitError : Option String
  submitBody : ChallengeResponse
  registerStatus : Nat
  registerError : Option String
  registerBody : ChallengeResponse
  keysGetStatus : Nat
  keysGetError : Option String
  keysGetBody : MasterKeys
  keysPostStatus : Nat
  keysPostError : Option String
  aesCtrDecrypt : Bytes → Bytes → Bytes → Bytes
  generateKeypair : Nat → Nat × Nat
  exportPublicKey : Nat → String
  wrapPrivateKey : Nat → Bytes → String
  importPublicKey : String → Nat
  unwrapPrivateKey : String → Bytes → Nat

/-- All authkeys are 32 bytes long. -/
def AUTHKEY_SIZE : Nat := 32

/-- Success code of the argon2 worker. -/
def ARGON2_OK : Nat := 0

/-- JavaScript `a || b` on a possibly absent string: the fallback is used when
the field is missing or empty (falsy). -/
def jsOr (m : Option String) (fallback : String) : String :=
  match m with
  | some s => if s = "" then fallback else s
  | none => fallback

/-- Default hash parameters of a fresh LoginActions object. -/
def defaultHashParams : Argon2HashParams :=
  { type := "argon2i", timeCost := 1, memoryCost := 128 * 1024,
    threads := 1, saltLen := 16 }

namespace LoginActions

/-- LoginActions.hashPassword: post a Hash2i request built from the current
hash parameters (hash length fixed at AUTHKEY_SIZE) and await the worker
reply; a non-OK code is thrown. -/
def hashPassword (env : ServerEnv) (st : LoginState) (password : String)
    (salt : Bytes) : Outcome Bytes :=
  { result :=
      if (env.argon2 password salt).1 = ARGON2_OK then
        .ok (env.argon2 password salt).2
      else
        .error "Error running argon2.",
    state := st,
    trace := [.workerHash password salt st.hashParams.timeCost
      st.hashParams.memoryCost st.hashParams.threads AUTHKEY_SIZE] }

/-- Second half of LoginActions.authenticate, from the key import on: import
the stored key material (a null field rejects with a type error), split the
challenge data into a 16-byte counter and the remaining payload, decrypt with
AES-CTR, submit, and on 200 persist the CSRF token and log the user in. -/
def solveChallenge (env : ServerEnv) (st : LoginState) (user : AuthUser)
    (tr : List Event) : Outcome AuthConditions :=
  match st.authKeyMaterial with
  | none =>
      { result := .error "TypeError: null key material",
        state := st,
        trace := tr ++ [.importAuthKey none] }
  | some material =>
      let iv := env.challenge.data.take 16
      let encrypted := env.challenge.data.drop 16
      let decrypted := env.aesCtrDecrypt material iv encrypted
      let tr1 := tr ++ [.importAuthKey (some material),
        .decryptChallenge material iv encrypted,
        .postSolvedChallenge env.challenge.id decrypted]
      if env.submitStatus = 401 then
        { result := .error "Authentication failure, password is incorrect.",
          state := st, trace := tr1 }
      else if env.submitStatus ≠ 200 then
        { result := .error (jsOr env.submitError "Error submitting challenge."),
          state := st, trace := tr1 }
      else
        { result := .ok .Success,
          state := { st with
            csrfToken := some env.submitBody.CSRFtoken,
            userStore := some ⟨user.email, env.submitBody.id⟩ },
          trace := tr1 ++ [.setCSRFtoken env.submitBody.CSRFtoken,
            .storeLogin user.email env.submitBody.id] }

/-- LoginActions.authenticate: request a challenge (412 returns TOTPRequired,
any other non-201 throws), adopt the challenge hash parameters, derive the
authentication key unless reuseAuthKey is set, then solve and submit. -/
def authenticate (env : ServerEnv) (st : LoginState) (user : AuthUser)
    (reuseAuthKey : Bool) : Outcome AuthConditions :=
  let tr0 : List Event := [.postChallengeRequest user.email user.totp]
  if env.challengeStatus = 412 then
    { result := .ok .TOTPRequired, state := st, trace := tr0 }
  else if env.challengeStatus ≠ 201 then
    { result := .error (jsOr env.challengeError
        "Unknown error requesting an auth challenge"),
      state := st, trace := tr0 }
  else
    let st1 := { st with hashParams := env.challenge.hashParams }
    if reuseAuthKey then
      solveChallenge env st1 user tr0
    else
      let h := hashPassword env st1 user.password env.challenge.salt
      match h.result with
      | .error e => { result := .error e, state := h.state, trace := tr0 ++ h.trace }
      | .ok material =>
          solveChallenge env { h.state with authKeyMaterial := some material }
            user (tr0 ++ h.trace)

/-- LoginActions.retrieveMasterKeypair: fetch the wrapped keypair, adopt its
hash parameters, re-derive the temp key from the stored hash salt, log the
wrapped private key to the console, unwrap, and cache both halves in
IndexedDB keyed by the user id from the user store. -/
def retrieveMasterKeypair (env : ServerEnv) (st : LoginState)
    (password : String) : Outcome Unit :=
  let tr0 : List Event := [.getKeys]
  if env.keysGetStatus ≠ 200 then
    { result := .error (jsOr env.keysGetError "Failed to fetch master keypair"),
      state := st, trace := tr0 }
  else
    let keys := env.keysGetBody
    let publicKey := env.importPublicKey keys.publicKey
    let st1 := { st with hashParams := keys.hashParams }
    let h := hashPassword env st1 password keys.hashSalt
    match h.result with
    | .error e => { result := .error e, state := h.state, trace := tr0 ++ h.trace }
    | .ok tempKeyMaterial =>
        let privateKey := env.unwrapPrivateKey keys.privateKey tempKeyMaterial
        let userID := (h.state.userStore.map User.id).getD "undefined"
        { result := .ok (),
          state := h.state,
          trace := tr0 ++ h.trace ++ [.consoleLog keys.privateKey,
            .idbAddKeys userID publicKey privateKey] }

end LoginActions

namespace RegisterActions

/-- RegisterActions.register, up to and including its resolution point: derive
the authentication key from the caller-supplied salt with the preset hash
parameters, record the salt length, create the account, then persist the user
identity and CSRF token.  The trailing follow-up authenticate call is not
awaited by the source, so it is not part of this outcome (see
registerAndLogin). -/
def register (env : ServerEnv) (st : LoginState) (user : AuthUser)
    (salt : Bytes) : Outcome Unit :=
  let h := LoginActions.hashPassword env st user.password salt
  match h.result with
  | .error e => { result := .error e, state := h.state, trace := h.trace }
  | .ok material =>
      let st1 := { h.state with
        authKeyMaterial := some material,
        hashParams := { h.state.hashParams with saltLen := salt.length } }
      let tr1 := h.trace ++ [.postRegister user.email (salt ++ material) st1.hashParams]
      if env.registerStatus ≠ 201 then
        { result := .error (jsOr env.registerError "Failed to register account"),
          state := st1, trace := tr1 }
      else
        { result := .ok (),
          state := { st1 with
            userStore := some ⟨user.email, env.registerBody.id⟩,
            csrfToken := some env.registerBody.CSRFtoken },
          trace := tr1 ++ [.storeLogin user.email env.registerBody.id,
            .setCSRFtoken env.registerBody.CSRFtoken] }

/-- RegisterActions.register together with the detached follow-up
`authenticate(user, true)` it fires without awaiting: the first component is
what register itself resolves with, the second is the outcome of the detached
authenticate run from the post-resolution state (absent when register threw
before reaching the call). -/
def registerAndLogin (env : ServerEnv) (st : LoginState) (user : AuthUser)
    (salt : Bytes) : Outcome Unit × Option (Outcome AuthConditions) :=
  let r := register env st user salt
  match r.result with
  | .error _ => (r, none)
  | .ok _ => (r, some (LoginActions.authenticate env r.state user true))

/-- RegisterActions.generateMasterKeypair: derive a temp key from the supplied
salt, generate an RSA keypair, export the public half, wrap the private half
under the temp key, upload the wrapped keypair with the wrap salt and the
current hash parameters, and cache the plaintext handles in IndexedDB keyed
by the user id. -/
def generateMasterKeypair (env : ServerEnv) (st : LoginState)
    (password : String) (salt : Bytes) (keysize : Nat := 4096) : Outcome Unit :=
  let h := LoginActions.hashPassword env st password salt
  match h.result with
  | .error e => { result := .error e, state := h.state, trace := h.trace }
  | .ok tempKeyMaterial =>
      let pair := env.generateKeypair keysize
      let publicKey := pair.1
      let privateKey := pair.2
      let exportedPublicKey := env.exportPublicKey publicKey
      let encryptedPrivateKey := env.wrapPrivateKey privateKey tempKeyMaterial
      match h.state.csrfToken with
      | none =>
          { result := .error "Failed to retrieve CSRF-Token from localstorage.",
            state := h.state, trace := h.trace }
      | some _ =>
          let tr1 := h.trace ++ [.postKeys exportedPublicKey encryptedPrivateKey
            salt h.state.hashParams]
          if env.keysPostStatus ≠ 201 then
            { result := .error (jsOr env.keysPostError "Failed to store master keypair"),
              state := h.state, trace := tr1 }
          else
            let userID := (h.state.userStore.map User.id).getD "undefined"
            { result := .ok (),
              state := h.state,
              trace := tr1 ++ [.idbAddKeys userID publicKey privateKey] }

end RegisterActions

/-- Modelled from the spec: the registration driver (the page-level caller
that generates the salts) is not among the analyzed sources; section 4.5
specifies that it derives the authentication key from a fresh client-generated
salt and then generates the master keypair with a second, freshly generated,
distinct salt used only for key wrapping.  The client randomness source is
`randomSalt`; draw 0 is the authentication salt and draw 1 the wrap salt, and
freshness of the two independent 16-byte draws (their distinctness) is the
section 3 invariant hypothesis.  The master keypair generation runs from the
state register resolved with. -/
def specRegisterSequence (env : ServerEnv) (st : LoginState) (user : AuthUser)
    (randomSalt : Nat → Bytes) : Outcome Unit × Option (Outcome Unit) :=
  let authSalt := randomSalt 0
  let wrapSalt := randomSalt 1
  let r := RegisterActions.register env st user authSalt
  match r.result with
  | .error _ => (r, none)
  | .ok _ => (r, some (RegisterActions.generateMasterKeypair env r.state
      user.password wrapSalt 4096))

/-- Salts of the password-hash requests of a trace, in order. -/
def workerHashSalts (tr : List Event) : List Bytes :=
  tr.filterMap fun e => match e with
    | .workerHash _ s _ _ _ _ => some s
    | _ => none

/-- Cost parameters (timeCost, memoryCost, threads) of the password-hash
requests of a trace, in order. -/
def workerHashCosts (tr : List Event) : List (Nat × Nat × Nat) :=
  tr.filterMap fun e => match e with
    | .workerHash _ _ tc mc th _ => some (tc, mc, th)
    | _ => none

/-- Requested output lengths of the password-hash requests of a trace. -/
def workerHashLens (tr : List Event) : List Nat :=
  tr.filterMap fun e => match e with
    | .workerHash _ _ _ _ _ len => some len
    | _ => none

section Fixtures

/-- Concrete hash parameters carried by the test challenge. -/
def cChParams : Argon2HashParams :=
  { type := "argon2i", timeCost := 2, memoryCost := 1024, threads := 2, saltLen := 4 }

def cChallenge : Challenge :=
  { id := "c1", data := (List.range 20).map (fun n => n + 1), salt := [1, 2, 3, 4],
    hashParams := cChParams }

def cEnv : ServerEnv :=
  { argon2 := fun _ _ => (ARGON2_OK, List.replicate 32 7),
    challengeStatus := 201, challengeError := none, challenge := cChallenge,
    submitStatus := 200, submitError := none,
    submitBody := { id := "u1", CSRFtoken := "tok1" },
    registerStatus := 201, registerError := none,
    registerBody := { id := "u1", CSRFtoken := "tok0" },
    keysGetStatus := 200, keysGetError := none,
    keysGetBody := { publicKey := "spki", privateKey := "wrapped",
                     hashSalt := [9, 9, 9, 9],
                     hashParams := { type := "argon2i", timeCost := 3, memoryCost := 2048,
                                     threads := 1, saltLen := 4 } },
    keysPostStatus := 201, keysPostError := none,
    aesCtrDecrypt := fun _ _ c => c.map (fun n => n + 1),
    generateKeypair := fun _ => (11, 12),
    exportPublicKey := fun _ => "spki",
    wrapPrivateKey := fun _ _ => "wrapped",
    importPublicKey := fun _ => 11,
    unwrapPrivateKey := fun _ _ => 12 }

def cState : LoginState :=
  { hashParams := defaultHashParams, authKeyMaterial := none,
    csrfToken := some "tok0", userStore := some { email := "a@b.com", id := "u1" } }

def cUser : AuthUser := { email := "a@b.com", password := "correct horse", totp := none }

def cEnv412 : ServerEnv := { cEnv with challengeStatus := 412 }

def cEnv500 : ServerEnv :=
  { cEnv with challengeStatus := 500, challengeError := some "boom" }

def cEnvSubmit401 : ServerEnv := { cEnv with submitStatus := 401 }

def cEnvSubmit500 : ServerEnv :=
  { cEnv with submitStatus := 500, submitError := some "down" }

end Fixtures

section Characterizations

theorem authenticate_eq_totp (env : ServerEnv) (st : LoginState) (user : AuthUser)
    (reuse : Bool) (h : env.challengeStatus = 412) :
    LoginActions.authenticate env st user reuse =
      { result := .ok .TOTPRequired, state := st,
        trace := [.postChallengeRequest user.email user.totp] } := by
  simp [LoginActions.authenticate, h]

theorem authenticate_eq_reqError (env : ServerEnv) (st : LoginState) (user : AuthUser)
    (reuse : Bool) (h1 : env.challengeStatus ≠ 412) (h2 : env.challengeStatus ≠ 201) :
    LoginActions.authenticate env st user reuse =
      { result := .error (jsOr env.challengeError
          "Unknown error requesting an auth challenge"),
        state := st,
        trace := [.postChallengeRequest user.email user.totp] } := by
  simp [LoginActions.authenticate, h1, h2]

theorem authenticate_eq_reuse (env : ServerEnv) (st : LoginState) (user : AuthUser)
    (h : env.challengeStatus = 201) :
    LoginActions.authenticate env st user true =
      LoginActions.solveChallenge env { st with hashParams := env.challenge.hashParams }
        user [.postChallengeRequest user.email user.totp] := by
  simp [LoginActions.authenticate, h]

theorem authenticate_eq_argonFail (env : ServerEnv) (st : LoginState) (user : AuthUser)
    (h : env.challengeStatus = 201)
    (hbad : (env.argon2 user.password env.challenge.salt).1 ≠ ARGON2_OK) :
    LoginActions.authenticate env st user false =
      { result := .error "Error running argon2.",
        state := { st with hashParams := env.challenge.hashParams },
        trace := [.postChallengeRequest user.email user.totp,
          .workerHash user.password env.challenge.salt
            env.challenge.hashParams.timeCost env.challenge.hashParams.memoryCost
            env.challenge.hashParams.threads AUTHKEY_SIZE] } := by
  simp [LoginActions.authenticate, LoginActions.hashPassword, h, hbad]

theorem authenticate_eq_fresh (env : ServerEnv) (st : LoginState) (user : AuthUser)
    (h : env.challengeStatus = 201)
    (hok : (env.argon2 user.password env.challenge.salt).1 = ARGON2_OK) :
    LoginActions.authenticate env st user false =
      LoginActions.solveChallenge env
        { st with
          hashParams := env.challenge.hashParams,
          authKeyMaterial := some (env.argon2 user.password env.challenge.salt).2 }
        user
        [.postChallengeRequest user.email user.totp,
         .workerHash user.password env.challenge.salt
           env.challenge.hashParams.timeCost env.challenge.hashParams.memoryCost
           env.challenge.hashParams.threads AUTHKEY_SIZE] := by
  simp [LoginActions.authenticate, LoginActions.hashPassword, h, hok]

theorem solveChallenge_eq_null (env : ServerEnv) (st : LoginState) (user : AuthUser)
    (tr : List Event) (hm : st.authKeyMaterial = none) :
    LoginActions.solveChallenge env st user tr =
      { result := .error "TypeError: null key material", state := st,
        trace := tr ++ [.importAuthKey none] } := by
  simp [LoginActions.solveChallenge, hm]

theorem solveChallenge_eq_401 (env : ServerEnv) (st : LoginState) (user : AuthUser)
    (tr : List Event) (m : Bytes) (hm : st.authKeyMaterial = some m)
    (h401 : env.submitStatus = 401) :
    LoginActions.solveChallenge env st user tr =
      { result := .error "Authentication failure, password is incorrect.",
        state := st,
        trace := tr ++ [.importAuthKey (some m),
          .decryptChallenge m (env.challenge.data.take 16) (env.challenge.data.drop 16),
          .postSolvedChallenge env.challenge.id
            (env.aesCtrDecrypt m (env.challenge.data.take 16)
              (env.challenge.data.drop 16))] } := by
  simp [LoginActions.solveChallenge, hm, h401]

theorem solveChallenge_eq_err (env : ServerEnv) (st : LoginState) (user : AuthUser)
    (tr : List Event) (m : Bytes) (hm : st.authKeyMaterial = some m)
    (h1 : env.submitStatus ≠ 401) (h2 : env.submitStatus ≠ 200) :
    LoginActions.solveChallenge env st user tr =
      { result := .error (jsOr env.submitError "Error submitting challenge."),
        state := st,
        trace := tr ++ [.importAuthKey (some m),
          .decryptChallenge m (env.challenge.data.take 16) (env.challenge.data.drop 16),
          .postSolvedChallenge env.challenge.id
            (env.aesCtrDecrypt m (env.challenge.data.take 16)
              (env.challenge.data.drop 16))] } := by
  simp [LoginActions.solveChallenge, hm, h1, h2]

theorem solveChallenge_eq_ok (env : ServerEnv) (st : LoginState) (user : AuthUser)
    (tr : List Event) (m : Bytes) (hm : st.authKeyMaterial = some m)
    (h200 : env.submitStatus = 200) :
    LoginActions.solveChallenge env st user tr =
      { result := .ok .Success,
        state := { st with
                   csrfToken := some env.submitBody.CSRFtoken,
                   userStore := some ⟨user.email, env.submitBody.id⟩ },
        trace := tr ++ [.importAuthKey (some m),
          .decryptChallenge m (env.challenge.data.take 16) (env.challenge.data.drop 16),
          .postSolvedChallenge env.challenge.id
            (env.aesCtrDecrypt m (env.challenge.data.take 16)
              (env.challenge.data.drop 16)),
          .setCSRFtoken env.submitBody.CSRFtoken,
          .storeLogin user.email env.submitBody.id] } := by
  simp [LoginActions.solveChallenge, hm, h200]

end Characterizations

theorem solveChallenge_error_preserves (env : ServerEnv) (st : LoginState)
    (user : AuthUser) (tr : List Event) (e : String)
    (he : (LoginActions.solveChallenge env st user tr).result = .error e)
    (htr1 : ∀ em uid, Event.storeLogin em uid ∉ tr)
    (htr2 : ∀ t, Event.setCSRFtoken t ∉ tr) :
    (LoginActions.solveChallenge env st user tr).state = st ∧
    (∀ em uid, Event.storeLogin em uid ∉ (LoginActions.solveChallenge env st user tr).trace) ∧
    (∀ t, Event.setCSRFtoken t ∉ (LoginActions.solveChallenge env st user tr).trace) := by
  cases hm : st.authKeyMaterial with
  | none =>
      rw [solveChallenge_eq_null env st user tr hm] at he ⊢
      refine ⟨rfl, ?_, ?_⟩ <;> intros <;> simp [htr1, htr2]
  | some m =>
      by_cases h401 : env.submitStatus = 401
      · rw [solveChallenge_eq_401 env st user tr m hm h401] at he ⊢
        refine ⟨rfl, ?_, ?_⟩ <;> intros <;> simp [htr1, htr2]
      · by_cases h200 : env.submitStatus = 200
        · rw [solveChallenge_eq_ok env st user tr m hm h200] at he
          simp at he
        · rw [solveChallenge_eq_err env st user tr m hm h401 h200] at he ⊢
          refine ⟨rfl, ?_, ?_⟩ <;> intros <;> simp [htr1, htr2]

/-- C5: when the challenge request returns status 412, authenticate returns
the second-factor-required condition as a normal return value (not a thrown
error) so the caller can re-invoke with a one-time code, and any other
non-201 challenge-request status is a thrown failure carrying the
server-supplied message or the fallback string. -/
theorem C5_second_factor_branch (env : ServerEnv) (st : LoginState)
    (user : AuthUser) (reuse : Bool) (o : Outcome AuthConditions)
    (ho : o = LoginActions.authenticate env st user reuse) :
    (env.challengeStatus = 412 → o.result = .ok .TOTPRequired) ∧
    (env.challengeStatus ≠ 412 → env.challengeStatus ≠ 201 →
      o.result = .error (jsOr env.challengeError
        "Unknown error requesting an auth challenge")) := by
  subst ho
  refine ⟨fun h => ?_, fun h1 h2 => ?_⟩
  · rw [authenticate_eq_totp env st user reuse h]
  · rw [authenticate_eq_reqError env st user reuse h1 h2]

/-- Witness for C5: a concrete 412 environment yields TOTPRequired as a value,
and a concrete 500 environment with server message "boom" throws it. -/
theorem C5_second_factor_branch_witness :
    (LoginActions.authenticate cEnv412 cState cUser false).result = .ok .TOTPRequired ∧
    (LoginActions.authenticate cEnv500 cState cUser false).result = .error "boom" := by
  constructor
  · exact (C5_second_factor_branch cEnv412 cState cUser false _ rfl).1 rfl
  · have h := (C5_second_factor_branch cEnv500 cState cUser false _ rfl).2
      (by decide) (by decide)
    have hj : jsOr cEnv500.challengeError "Unknown error requesting an auth challenge"
        = "boom" := rfl
    rw [hj] at h
    exact h

/-- C7: for every authentication attempt that receives a challenge, the client
adopts the hash parameters carried by the challenge, and (when not reusing a
previously derived key) derives the authentication key material from the
password, the challenge salt and the challenge hash parameters, storing the
result as the authentication key material. -/
theorem C7_adopts_challenge_params (env : ServerEnv) (st : LoginState)
    (user : AuthUser) (o : Outcome AuthConditions)
    (ho : o = LoginActions.authenticate env st user false)
    (h201 : env.challengeStatus = 201)
    (hok : (env.argon2 user.password env.challenge.salt).1 = ARGON2_OK) :
    o.state.hashParams = env.challenge.hashParams ∧
    Event.workerHash user.password env.challenge.salt
      env.challenge.hashParams.timeCost env.challenge.hashParams.memoryCost
      env.challenge.hashParams.threads AUTHKEY_SIZE ∈ o.trace ∧
    o.state.authKeyMaterial = some (env.argon2 user.password env.challenge.salt).2 := by
  subst ho
  rw [authenticate_eq_fresh env st user h201 hok]
  by_cases h401 : env.submitStatus = 401
  · rw [solveChallenge_eq_401 env _ user _ _ rfl h401]
    exact ⟨rfl, by simp, rfl⟩
  · by_cases h200 : env.submitStatus = 200
    · rw [solveChallenge_eq_ok env _ user _ _ rfl h200]
      exact ⟨rfl, by simp, rfl⟩
    · rw [solveChallenge_eq_err env _ user _ _ rfl h401 h200]
      exact ⟨rfl, by simp, rfl⟩

/-- Witness for C7 at the concrete environment: the challenge carries cost
parameters (2, 1024, 2) different from the client defaults, and the state
after authenticate carries exactly the challenge parameters and the derived
32-byte key material. -/
theorem C7_adopts_challenge_params_witness :
    (LoginActions.authenticate cEnv cState cUser false).state.hashParams = cChParams ∧
    Event.workerHash "correct horse" [1, 2, 3, 4] 2 1024 2 32 ∈
      (LoginActions.authenticate cEnv cState cUser false).trace ∧
    (LoginActions.authenticate cEnv cState cUser false).state.authKeyMaterial =
      some (List.replicate 32 7) := by
  have h := C7_adopts_challenge_params cEnv cState cUser _ rfl (by decide) (by decide)
  exact h

/-- C10: calling authenticate with reuseAuthKey set requires that key material
was already derived and stored; under that precondition the unguarded use of
the stored material at key import never operates on null, and without it the
key-import step is reached with null material. -/
theorem C10_reuse_precondition (env : ServerEnv) (st : LoginState)
    (user : AuthUser) (o : Outcome AuthConditions)
    (ho : o = LoginActions.authenticate env st user true)
    (h201 : env.challengeStatus = 201) :
    (∀ m, st.authKeyMaterial = some m →
      Event.importAuthKey (some m) ∈ o.trace ∧
      Event.importAuthKey none ∉ o.trace) ∧
    (st.authKeyMaterial = none → Event.importAuthKey none ∈ o.trace) := by
  subst ho
  rw [authenticate_eq_reuse env st user h201]
  constructor
  · intro m hm
    have hm1 : ({ st with hashParams := env.challenge.hashParams } : LoginState).authKeyMaterial
        = some m := hm
    by_cases h401 : env.submitStatus = 401
    · rw [solveChallenge_eq_401 env _ user _ m hm1 h401]
      constructor <;> simp
    · by_cases h200 : env.submitStatus = 200
      · rw [solveChallenge_eq_ok env _ user _ m hm1 h200]
        constructor <;> simp
      · rw [solveChallenge_eq_err env _ user _ m hm1 h401 h200]
        constructor <;> simp
  · intro hm
    have hm1 : ({ st with hashParams := env.challenge.hashParams } : LoginState).authKeyMaterial
        = none := hm
    rw [solveChallenge_eq_null env _ user _ hm1]
    simp

/-- Witness for C10: with stored key material the import step receives it, and
with a null field the import step is reached with null. -/
theorem C10_reuse_precondition_witness :
    Event.importAuthKey (some (List.replicate 32 7)) ∈
      (LoginActions.authenticate cEnv
        { cState with authKeyMaterial := some (List.replicate 32 7) } cUser true).trace ∧
    Event.importAuthKey none ∈
      (LoginActions.authenticate cEnv cState cUser true).trace := by
  constructor
  · exact ((C10_reuse_precondition cEnv
      { cState with authKeyMaterial := some (List.replicate 32 7) } cUser _ rfl
      (by decide)).1 (List.replicate 32 7) rfl).1
  · exact (C10_reuse_precondition cEnv cState cUser _ rfl (by decide)).2 rfl

/-- C1: a 401 response to the challenge-submit request is reported as the
distinct incorrect-password failure, any other non-200 submit response is
reported as a generic failure carrying the server-supplied message or the
fallback string, and in every failure case of authenticate the session token
and user identity are not written (the user store and CSRF token keep their
prior values and no login or token-set effect occurs). -/
theorem C1_submit_failure_handling (env : ServerEnv) (st : LoginState)
    (user : AuthUser) (reuse : Bool) (o : Outcome AuthConditions)
    (ho : o = LoginActions.authenticate env st user reuse) :
    (∀ e, o.result = .error e →
      o.state.userStore = st.userStore ∧ o.state.csrfToken = st.csrfToken ∧
      (∀ em uid, Event.storeLogin em uid ∉ o.trace) ∧
      (∀ t, Event.setCSRFtoken t ∉ o.trace)) ∧
    (env.challengeStatus = 201 →
      ((reuse = true ∧ st.authKeyMaterial ≠ none) ∨
       (reuse = false ∧ (env.argon2 user.password env.challenge.salt).1 = ARGON2_OK)) →
      (env.submitStatus = 401 →
        o.result = .error "Authentication failure, password is incorrect.") ∧
      (env.submitStatus ≠ 401 → env.submitStatus ≠ 200 →
        o.result = .error (jsOr env.submitError "Error submitting challenge."))) := by
  subst ho
  constructor
  · intro e he
    by_cases h412 : env.challengeStatus = 412
    · rw [authenticate_eq_totp env st user reuse h412] at he
      simp at he
    · by_cases h201 : env.challengeStatus = 201
      · cases reuse with
        | true =>
            rw [authenticate_eq_reuse env st user h201] at he ⊢
            have h := solveChallenge_error_preserves env _ user _ e he
              (by intros; simp) (by intros; simp)
            rw [h.1]
            exact ⟨rfl, rfl, h.2.1, h.2.2⟩
        | false =>
            by_cases hok : (env.argon2 user.password env.challenge.salt).1 = ARGON2_OK
            · rw [authenticate_eq_fresh env st user h201 hok] at he ⊢
              have h := solveChallenge_error_preserves env _ user _ e he
                (by intros; simp) (by intros; simp)
              rw [h.1]
              exact ⟨rfl, rfl, h.2.1, h.2.2⟩
            · rw [authenticate_eq_argonFail env st user h201 hok]
              exact ⟨rfl, rfl, by intros; simp, by intros; simp⟩
      · rw [authenticate_eq_reqError env st user reuse h412 h201]
        exact ⟨rfl, rfl, by intros; simp, by intros; simp⟩
  · intro h201 hkey
    rcases hkey with ⟨hr, hm⟩ | ⟨hr, hok⟩
    · subst hr
      rw [authenticate_eq_reuse env st user h201]
      obtain ⟨m, hmm⟩ := Option.ne_none_iff_exists'.mp hm
      have hm1 : ({ st with hashParams := env.challenge.hashParams } :
          LoginState).authKeyMaterial = some m := hmm
      constructor
      · intro h401
        rw [solveChallenge_eq_401 env _ user _ m hm1 h401]
      · intro h1 h2
        rw [solveChallenge_eq_err env _ user _ m hm1 h1 h2]
    · subst hr
      rw [authenticate_eq_fresh env st user h201 hok]
      constructor
      · intro h401
        rw [solveChallenge_eq_401 env _ user _ _ rfl h401]
      · intro h1 h2
        rw [solveChallenge_eq_err env _ user _ _ rfl h1 h2]

/-- Witness for C1: a concrete 401 submit response yields the fixed
incorrect-password message, a concrete 500 submit response with server
message "down" yields that message, and in the 401 case the user store is
unchanged. -/
theorem C1_submit_failure_handling_witness :
    (LoginActions.authenticate cEnvSubmit401 cState cUser false).result =
      .error "Authentication failure, password is incorrect." ∧
    (LoginActions.authenticate cEnvSubmit500 cState cUser false).result = .error "down" ∧
    (LoginActions.authenticate cEnvSubmit401 cState cUser false).state.userStore =
      cState.userStore := by
  have h1 := C1_submit_failure_handling cEnvSubmit401 cState cUser false _ rfl
  have h2 := C1_submit_failure_handling cEnvSubmit500 cState cUser false _ rfl
  have ha := (h1.2 (by decide) (Or.inr ⟨rfl, by decide⟩)).1 (by decide)
  have hb := (h2.2 (by decide) (Or.inr ⟨rfl, by decide⟩)).2 (by decide) (by decide)
  have hj : jsOr cEnvSubmit500.submitError "Error submitting challenge." = "down" := rfl
  rw [hj] at hb
  exact ⟨ha, hb, ((h1.1 _ ha).1)⟩

theorem solveChallenge_decrypt_events (env : ServerEnv) (st : LoginState)
    (user : AuthUser) (tr : List Event) (m : Bytes) (hm : st.authKeyMaterial = some m) :
    Event.decryptChallenge m (env.challenge.data.take 16) (env.challenge.data.drop 16) ∈
      (LoginActions.solveChallenge env st user tr).trace ∧
    Event.postSolvedChallenge env.challenge.id
      (env.aesCtrDecrypt m (env.challenge.data.take 16) (env.challenge.data.drop 16)) ∈
      (LoginActions.solveChallenge env st user tr).trace := by
  by_cases h401 : env.submitStatus = 401
  · rw [solveChallenge_eq_401 env st user tr m hm h401]
    constructor <;> simp
  · by_cases h200 : env.submitStatus = 200
    · rw [solveChallenge_eq_ok env st user tr m hm h200]
      constructor <;> simp
    · rw [solveChallenge_eq_err env st user tr m hm h401 h200]
      constructor <;> simp

theorem solveChallenge_no_hash (env : ServerEnv) (st : LoginState) (user : AuthUser)
    (tr : List Event) (p : String) (s : Bytes) (tc mc th len : Nat)
    (hmem : Event.workerHash p s tc mc th len ∈
      (LoginActions.solveChallenge env st user tr).trace) :
    Event.workerHash p s tc mc th len ∈ tr := by
  cases hm : st.authKeyMaterial with
  | none =>
      rw [solveChallenge_eq_null env st user tr hm] at hmem
      simpa using hmem
  | some m =>
      by_cases h401 : env.submitStatus = 401
      · rw [solveChallenge_eq_401 env st user tr m hm h401] at hmem
        simpa using hmem
      · by_cases h200 : env.submitStatus = 200
        · rw [solveChallenge_eq_ok env st user tr m hm h200] at hmem
          simpa using hmem
        · rw [solveChallenge_eq_err env st user tr m hm h401 h200] at hmem
          simpa using hmem

theorem register_eq_argonFail (env : ServerEnv) (st : LoginState) (user : AuthUser)
    (salt : Bytes) (hbad : (env.argon2 user.password salt).1 ≠ ARGON2_OK) :
    RegisterActions.register env st user salt =
      { result := .error "Error running argon2.", state := st,
        trace := [.workerHash user.password salt st.hashParams.timeCost
          st.hashParams.memoryCost st.hashParams.threads AUTHKEY_SIZE] } := by
  simp [RegisterActions.register, LoginActions.hashPassword, hbad]

theorem register_eq_err (env : ServerEnv) (st : LoginState) (user : AuthUser)
    (salt : Bytes) (hok : (env.argon2 user.password salt).1 = ARGON2_OK)
    (hreg : env.registerStatus ≠ 201) :
    RegisterActions.register env st user salt =
      { result := .error (jsOr env.registerError "Failed to register account"),
        state := { st with
                   authKeyMaterial := some (env.argon2 user.password salt).2,
                   hashParams := { st.hashParams with saltLen := salt.length } },
        trace := [.workerHash user.password salt st.hashParams.timeCost
            st.hashParams.memoryCost st.hashParams.threads AUTHKEY_SIZE,
          .postRegister user.email (salt ++ (env.argon2 user.password salt).2)
            { st.hashParams with saltLen := salt.length }] } := by
  simp [RegisterActions.register, LoginActions.hashPassword, hok, hreg]

theorem register_eq_ok (env : ServerEnv) (st : LoginState) (user : AuthUser)
    (salt : Bytes) (hok : (env.argon2 user.password salt).1 = ARGON2_OK)
    (hreg : env.registerStatus = 201) :
    RegisterActions.register env st user salt =
      { result := .ok (),
        state := { st with
                   authKeyMaterial := some (env.argon2 user.password salt).2,
                   hashParams := { st.hashParams with saltLen := salt.length },
                   userStore := some ⟨user.email, env.registerBody.id⟩,
                   csrfToken := some env.registerBody.CSRFtoken },
        trace := [.workerHash user.password salt st.hashParams.timeCost
            st.hashParams.memoryCost st.hashParams.threads AUTHKEY_SIZE,
          .postRegister user.email (salt ++ (env.argon2 user.password salt).2)
            { st.hashParams with saltLen := salt.length },
          .storeLogin user.email env.registerBody.id,
          .setCSRFtoken env.registerBody.CSRFtoken] } := by
  simp [RegisterActions.register, LoginActions.hashPassword, hok, hreg]

theorem generate_eq_argonFail (env : ServerEnv) (st : LoginState)
    (password : String) (salt : Bytes) (keysize : Nat)
    (hbad : (env.argon2 password salt).1 ≠ ARGON2_OK) :
    RegisterActions.generateMasterKeypair env st password salt keysize =
      { result := .error "Error running argon2.", state := st,
        trace := [.workerHash password salt st.hashParams.timeCost
          st.hashParams.memoryCost st.hashParams.threads AUTHKEY_SIZE] } := by
  simp [RegisterActions.generateMasterKeypair, LoginActions.hashPassword, hbad]

theorem generate_eq_noCSRF (env : ServerEnv) (st : LoginState)
    (password : String) (salt : Bytes) (keysize : Nat)
    (hok : (env.argon2 password salt).1 = ARGON2_OK) (hcsrf : st.csrfToken = none) :
    RegisterActions.generateMasterKeypair env st password salt keysize =
      { result := .error "Failed to retrieve CSRF-Token from localstorage.",
        state := st,
        trace := [.workerHash password salt st.hashParams.timeCost
          st.hashParams.memoryCost st.hashParams.threads AUTHKEY_SIZE] } := by
  simp [RegisterActions.generateMasterKeypair, LoginActions.hashPassword, hok, hcsrf]

theorem generate_eq_postErr (env : ServerEnv) (st : LoginState)
    (password : String) (salt : Bytes) (keysize : Nat) (tok : String)
    (hok : (env.argon2 password salt).1 = ARGON2_OK) (hcsrf : st.csrfToken = some tok)
    (hpost : env.keysPostStatus ≠ 201) :
    RegisterActions.generateMasterKeypair env st password salt keysize =
      { result := .error (jsOr env.keysPostError "Failed to store master keypair"),
        state := st,
        trace := [.workerHash password salt st.hashParams.timeCost
            st.hashParams.memoryCost st.hashParams.threads AUTHKEY_SIZE,
          .postKeys (env.exportPublicKey (env.generateKeypair keysize).1)
            (env.wrapPrivateKey (env.generateKeypair keysize).2 (env.argon2 password salt).2)
            salt st.hashParams] } := by
  simp [RegisterActions.generateMasterKeypair, LoginActions.hashPassword, hok, hcsrf, hpost]

theorem generate_eq_ok (env : ServerEnv) (st : LoginState)
    (password : String) (salt : Bytes) (keysize : Nat) (tok : String)
    (hok : (env.argon2 password salt).1 = ARGON2_OK) (hcsrf : st.csrfToken = some tok)
    (hpost : env.keysPostStatus = 201) :
    RegisterActions.generateMasterKeypair env st password salt keysize =
      { result := .ok (),
        state := st,
        trace := [.workerHash password salt st.hashParams.timeCost
            st.hashParams.memoryCost st.hashParams.threads AUTHKEY_SIZE,
          .postKeys (env.exportPublicKey (env.generateKeypair keysize).1)
            (env.wrapPrivateKey (env.generateKeypair keysize).2 (env.argon2 password salt).2)
            salt st.hashParams,
          .idbAddKeys ((st.userStore.map User.id).getD "undefined")
            (env.generateKeypair keysize).1 (env.generateKeypair keysize).2] } := by
  simp [RegisterActions.generateMasterKeypair, LoginActions.hashPassword, hok, hcsrf, hpost]

theorem retrieve_eq_fetchErr (env : ServerEnv) (st : LoginState) (password : String)
    (h : env.keysGetStatus ≠ 200) :
    LoginActions.retrieveMasterKeypair env st password =
      { result := .error (jsOr env.keysGetError "Failed to fetch master keypair"),
        state := st, trace := [.getKeys] } := by
  simp [LoginActions.retrieveMasterKeypair, h]

theorem retrieve_eq_argonFail (env : ServerEnv) (st : LoginState) (password : String)
    (h200 : env.keysGetStatus = 200)
    (hbad : (env.argon2 password env.keysGetBody.hashSalt).1 ≠ ARGON2_OK) :
    LoginActions.retrieveMasterKeypair env st password =
      { result := .error "Error running argon2.",
        state := { st with hashParams := env.keysGetBody.hashParams },
        trace := [.getKeys,
          .workerHash password env.keysGetBody.hashSalt
            env.keysGetBody.hashParams.timeCost env.keysGetBody.hashParams.memoryCost
            env.keysGetBody.hashParams.threads AUTHKEY_SIZE] } := by
  simp [LoginActions.retrieveMasterKeypair, LoginActions.hashPassword, h200, hbad]

theorem retrieve_eq_ok (env : ServerEnv) (st : LoginState) (password : String)
    (h200 : env.keysGetStatus = 200)
    (hok : (env.argon2 password env.keysGetBody.hashSalt).1 = ARGON2_OK) :
    LoginActions.retrieveMasterKeypair env st password =
      { result := .ok (),
        state := { st with hashParams := env.keysGetBody.hashParams },
        trace := [.getKeys,
          .workerHash password env.keysGetBody.hashSalt
            env.keysGetBody.hashParams.timeCost env.keysGetBody.hashParams.memoryCost
            env.keysGetBody.hashParams.threads AUTHKEY_SIZE,
          .consoleLog env.keysGetBody.privateKey,
          .idbAddKeys ((st.userStore.map User.id).getD "undefined")
            (env.importPublicKey env.keysGetBody.publicKey)
            (env.unwrapPrivateKey env.keysGetBody.privateKey
              (env.argon2 password env.keysGetBody.hashSalt).2)] } := by
  simp [LoginActions.retrieveMasterKeypair, LoginActions.hashPassword, h200, hok]

/-- C4: for every challenge, authenticate splits the decoded challenge
ciphertext into a 16-byte counter prefix and the remaining bytes as the
encrypted payload, and decrypts the payload with AES-CTR keyed by the derived
authentication key material; the decrypted payload is what gets submitted. -/
theorem C4_challenge_split (env : ServerEnv) (st : LoginState) (user : AuthUser)
    (o : Outcome AuthConditions)
    (ho : o = LoginActions.authenticate env st user false)
    (h201 : env.challengeStatus = 201)
    (hok : (env.argon2 user.password env.challenge.salt).1 = ARGON2_OK) :
    Event.decryptChallenge (env.argon2 user.password env.challenge.salt).2
      (env.challenge.data.take 16) (env.challenge.data.drop 16) ∈ o.trace ∧
    Event.postSolvedChallenge env.challenge.id
      (env.aesCtrDecrypt (env.argon2 user.password env.challenge.salt).2
        (env.challenge.data.take 16) (env.challenge.data.drop 16)) ∈ o.trace ∧
    (16 ≤ env.challenge.data.length →
      (env.challenge.data.take 16).length = 16 ∧
      env.challenge.data.take 16 ++ env.challenge.data.drop 16 = env.challenge.data) := by
  subst ho
  rw [authenticate_eq_fresh env st user h201 hok]
  have h := solveChallenge_decrypt_events env
    { st with
      hashParams := env.challenge.hashParams,
      authKeyMaterial := some (env.argon2 user.password env.challenge.salt).2 }
    user
    [.postChallengeRequest user.email user.totp,
     .workerHash user.password env.challenge.salt env.challenge.hashParams.timeCost
       env.challenge.hashParams.memoryCost env.challenge.hashParams.threads AUTHKEY_SIZE]
    (env.argon2 user.password env.challenge.salt).2 rfl
  refine ⟨h.1, h.2, fun hlen => ⟨?_, List.take_append_drop 16 _⟩⟩
  rw [List.length_take]
  omega

/-- Witness for C4 at the concrete environment: the 20-byte challenge data is
split into the first 16 bytes and the trailing 4 bytes. -/
theorem C4_challenge_split_witness :
    Event.decryptChallenge (List.replicate 32 7)
      [1, 2, 3, 4, 5, 6, 7, 8, 9, 10, 11, 12, 13, 14, 15, 16] [17, 18, 19, 20] ∈
      (LoginActions.authenticate cEnv cState cUser false).trace ∧
    (cEnv.challenge.data.take 16).length = 16 := by
  have h := C4_challenge_split cEnv cState cUser _ rfl (by decide) (by decide)
  have he : Event.decryptChallenge (List.replicate 32 7)
      [1, 2, 3, 4, 5, 6, 7, 8, 9, 10, 11, 12, 13, 14, 15, 16] [17, 18, 19, 20] =
      Event.decryptChallenge (cEnv.argon2 cUser.password cEnv.challenge.salt).2
        (cEnv.challenge.data.take 16) (cEnv.challenge.data.drop 16) := by decide
  rw [he]
  exact ⟨h.1, (h.2.2 (by decide)).1⟩

theorem authenticate_reuse_hashSalts (env : ServerEnv) (st : LoginState)
    (user : AuthUser) :
    workerHashSalts (LoginActions.authenticate env st user true).trace = [] := by
  by_cases h412 : env.challengeStatus = 412
  · rw [authenticate_eq_totp env st user true h412]
    simp [workerHashSalts]
  · by_cases h201 : env.challengeStatus = 201
    · rw [authenticate_eq_reuse env st user h201]
      cases hm : st.authKeyMaterial with
      | none =>
          rw [solveChallenge_eq_null env _ user _ rfl]
          simp [workerHashSalts]
      | some m =>
          by_cases h401 : env.submitStatus = 401
          · rw [solveChallenge_eq_401 env _ user _ m rfl h401]
            simp [workerHashSalts]
          · by_cases h200 : env.submitStatus = 200
            · rw [solveChallenge_eq_ok env _ user _ m rfl h200]
              simp [workerHashSalts]
            · rw [solveChallenge_eq_err env _ user _ m rfl h401 h200]
              simp [workerHashSalts]
    · rw [authenticate_eq_reqError env st user true h412 h201]
      simp [workerHashSalts]

theorem generate_hashRequests (env : ServerEnv) (st : LoginState)
    (password : String) (salt : Bytes) (keysize : Nat) :
    workerHashSalts
        (RegisterActions.generateMasterKeypair env st password salt keysize).trace
      = [salt] ∧
    workerHashCosts
        (RegisterActions.generateMasterKeypair env st password salt keysize).trace
      = [(st.hashParams.timeCost, st.hashParams.memoryCost, st.hashParams.threads)] := by
  by_cases hok : (env.argon2 password salt).1 = ARGON2_OK
  · cases hcs : st.csrfToken with
    | none =>
        rw [generate_eq_noCSRF env st password salt keysize hok hcs]
        simp [workerHashSalts, workerHashCosts]
    | some tok =>
        by_cases hpost : env.keysPostStatus = 201
        · rw [generate_eq_ok env st password salt keysize tok hok hcs hpost]
          simp [workerHashSalts, workerHashCosts]
        · rw [generate_eq_postErr env st password salt keysize tok hok hcs hpost]
          simp [workerHashSalts, workerHashCosts]
  · rw [generate_eq_argonFail env st password salt keysize hok]
    simp [workerHashSalts, workerHashCosts]

/-- C8: every password hash requested by the client (for authentication keys
in authenticate and register and for temp keys in generateMasterKeypair and
retrieveMasterKeypair) requests a fixed output length of exactly 32 bytes. -/
theorem C8_hash_output_length (env : ServerEnv) (st : LoginState) (user : AuthUser)
    (reuse : Bool) (password : String) (salt : Bytes) (keysize : Nat)
    (p : String) (s : Bytes) (tc mc th len : Nat) :
    (Event.workerHash p s tc mc th len ∈
      (LoginActions.authenticate env st user reuse).trace → len = 32) ∧
    (Event.workerHash p s tc mc th len ∈
      (RegisterActions.register env st user salt).trace → len = 32) ∧
    (Event.workerHash p s tc mc th len ∈
      (RegisterActions.generateMasterKeypair env st password salt keysize).trace →
      len = 32) ∧
    (Event.workerHash p s tc mc th len ∈
      (LoginActions.retrieveMasterKeypair env st password).trace → len = 32) := by
  refine ⟨?_, ?_, ?_, ?_⟩
  · intro hmem
    by_cases h412 : env.challengeStatus = 412
    · rw [authenticate_eq_totp env st user reuse h412] at hmem
      simp at hmem
    · by_cases h201 : env.challengeStatus = 201
      · cases reuse with
        | true =>
            rw [authenticate_eq_reuse env st user h201] at hmem
            have h := solveChallenge_no_hash env _ user _ p s tc mc th len hmem
            simp at h
        | false =>
            by_cases hok : (env.argon2 user.password env.challenge.salt).1 = ARGON2_OK
            · rw [authenticate_eq_fresh env st user h201 hok] at hmem
              have h := solveChallenge_no_hash env _ user _ p s tc mc th len hmem
              simp at h
              exact h.2.2.2.2.2
            · rw [authenticate_eq_argonFail env st user h201 hok] at hmem
              simp at hmem
              exact hmem.2.2.2.2.2
      · rw [authenticate_eq_reqError env st user reuse h412 h201] at hmem
        simp at hmem
  · intro hmem
    by_cases hok : (env.argon2 user.password salt).1 = ARGON2_OK
    · by_cases hreg : env.registerStatus = 201
      · rw [register_eq_ok env st user salt hok hreg] at hmem
        simp at hmem
        exact hmem.2.2.2.2.2
      · rw [register_eq_err env st user salt hok hreg] at hmem
        simp at hmem
        exact hmem.2.2.2.2.2
    · rw [register_eq_argonFail env st user salt hok] at hmem
      simp at hmem
      exact hmem.2.2.2.2.2
  · intro hmem
    by_cases hok : (env.argon2 password salt).1 = ARGON2_OK
    · cases hcs : st.csrfToken with
      | none =>
          rw [generate_eq_noCSRF env st password salt keysize hok hcs] at hmem
          simp at hmem
          exact hmem.2.2.2.2.2
      | some tok =>
          by_cases hpost : env.keysPostStatus = 201
          · rw [generate_eq_ok env st password salt keysize tok hok hcs hpost] at hmem
            simp at hmem
            exact hmem.2.2.2.2.2
          · rw [generate_eq_postErr env st password salt keysize tok hok hcs hpost] at hmem
            simp at hmem
            exact hmem.2.2.2.2.2
    · rw [generate_eq_argonFail env st password salt keysize hok] at hmem
      simp at hmem
      exact hmem.2.2.2.2.2
  · intro hmem
    by_cases h200 : env.keysGetStatus = 200
    · by_cases hok : (env.argon2 password env.keysGetBody.hashSalt).1 = ARGON2_OK
      · rw [retrieve_eq_ok env st password h200 hok] at hmem
        simp at hmem
        exact hmem.2.2.2.2.2
      · rw [retrieve_eq_argonFail env st password h200 hok] at hmem
        simp at hmem
        exact hmem.2.2.2.2.2
    · rw [retrieve_eq_fetchErr env st password h200] at hmem
      simp at hmem

/-- Witness for C8: the hash request issued by a concrete authenticate run
carries output length 32. -/
theorem C8_hash_output_length_witness :
    Event.workerHash "correct horse" [1, 2, 3, 4] 2 1024 2 32 ∈
      (LoginActions.authenticate cEnv cState cUser false).trace ∧ 32 = 32 := by
  refine ⟨by decide, ?_⟩
  exact (C8_hash_output_length cEnv cState cUser false "correct horse" [1, 2, 3, 4] 4096
    "correct horse" [1, 2, 3, 4] 2 1024 2 32).1 (by decide)

theorem registerAndLogin_fst (env : ServerEnv) (st : LoginState) (user : AuthUser)
    (salt : Bytes) :
    (RegisterActions.registerAndLogin env st user salt).1 =
      RegisterActions.register env st user salt := by
  unfold RegisterActions.registerAndLogin
  cases h : (RegisterActions.register env st user salt).result <;> simp [h]

theorem registerAndLogin_eq_ok (env : ServerEnv) (st : LoginState) (user : AuthUser)
    (salt : Bytes) (hok : (env.argon2 user.password salt).1 = ARGON2_OK)
    (hreg : env.registerStatus = 201) :
    RegisterActions.registerAndLogin env st user salt =
      (RegisterActions.register env st user salt,
       some (LoginActions.authenticate env
         (RegisterActions.register env st user salt).state user true)) := by
  unfold RegisterActions.registerAndLogin
  rw [register_eq_ok env st user salt hok hreg]

/-- C6: registration derives the authentication key exactly once: register
issues a single hash request on the caller-supplied salt, creates the
account, persists the session identity and token, and then invokes the
authenticator with key reuse enabled, whose run issues no further hash
request. -/
theorem C6_single_derivation (env : ServerEnv) (st : LoginState) (user : AuthUser)
    (salt : Bytes)
    (hok : (env.argon2 user.password salt).1 = ARGON2_OK)
    (hreg : env.registerStatus = 201)
    (r : Outcome Unit) (a : Option (Outcome AuthConditions))
    (hra : (r, a) = RegisterActions.registerAndLogin env st user salt) :
    r.result = .ok () ∧
    r.state.userStore = some ⟨user.email, env.registerBody.id⟩ ∧
    r.state.csrfToken = some env.registerBody.CSRFtoken ∧
    workerHashSalts r.trace = [salt] ∧
    a = some (LoginActions.authenticate env r.state user true) ∧
    workerHashSalts (LoginActions.authenticate env r.state user true).trace = [] := by
  rw [registerAndLogin_eq_ok env st user salt hok hreg, Prod.mk.injEq] at hra
  obtain ⟨hr, ha⟩ := hra
  subst hr
  subst ha
  rw [register_eq_ok env st user salt hok hreg]
  refine ⟨rfl, rfl, rfl, ?_, rfl, authenticate_reuse_hashSalts env _ user⟩
  simp [workerHashSalts]

/-- Witness for C6 at the concrete environment: register hashes once with the
supplied salt and the detached reuse login hashes zero times. -/
theorem C6_single_derivation_witness :
    workerHashSalts
        (RegisterActions.registerAndLogin cEnv cState cUser [1, 2, 3, 4]).1.trace
      = [[1, 2, 3, 4]] ∧
    workerHashSalts (LoginActions.authenticate cEnv
        (RegisterActions.registerAndLogin cEnv cState cUser [1, 2, 3, 4]).1.state
        cUser true).trace
      = [] := by
  have h := C6_single_derivation cEnv cState cUser [1, 2, 3, 4]
    (by decide) (by decide) _ _ rfl
  exact ⟨h.2.2.2.1, h.2.2.2.2.2⟩

/-- C9: register resolves once the account is created and the session
identity and CSRF token are persisted; the detached follow-up authenticate is
not awaited, so its outcome, failures included, never changes what register
resolved with. -/
theorem C9_register_resolution (env : ServerEnv) (st : LoginState) (user : AuthUser)
    (salt : Bytes)
    (hok : (env.argon2 user.password salt).1 = ARGON2_OK)
    (hreg : env.registerStatus = 201) :
    (RegisterActions.registerAndLogin env st user salt).1 =
      RegisterActions.register env st user salt ∧
    (RegisterActions.register env st user salt).result = .ok () ∧
    (RegisterActions.register env st user salt).state.userStore =
      some ⟨user.email, env.registerBody.id⟩ ∧
    (RegisterActions.register env st user salt).state.csrfToken =
      some env.registerBody.CSRFtoken ∧
    (∀ o : Outcome AuthConditions,
      (RegisterActions.registerAndLogin env st user salt).2 = some o →
      o.result.isOk = false →
      (RegisterActions.registerAndLogin env st user salt).1.result = .ok ()) := by
  refine ⟨registerAndLogin_fst env st user salt, ?_, ?_, ?_, ?_⟩
  · rw [register_eq_ok env st user salt hok hreg]
  · rw [register_eq_ok env st user salt hok hreg]
  · rw [register_eq_ok env st user salt hok hreg]
  · intro o _ _
    rw [registerAndLogin_fst env st user salt, register_eq_ok env st user salt hok hreg]

/-- Witness for C9 at a concrete environment whose challenge-submit endpoint
fails with 500: the detached follow-up login errors while register still
resolved successfully with the session persisted. -/
theorem C9_register_resolution_witness :
    (RegisterActions.registerAndLogin cEnvSubmit500 cState cUser [1, 2, 3, 4]).1.result
      = .ok () ∧
    (RegisterActions.registerAndLogin cEnvSubmit500 cState cUser [1, 2, 3, 4]).2 =
      some (LoginActions.authenticate cEnvSubmit500
        (RegisterActions.register cEnvSubmit500 cState cUser [1, 2, 3, 4]).state
        cUser true) ∧
    (LoginActions.authenticate cEnvSubmit500
      (RegisterActions.register cEnvSubmit500 cState cUser [1, 2, 3, 4]).state
      cUser true).result.isOk = false := by
  have h := C9_register_resolution cEnvSubmit500 cState cUser [1, 2, 3, 4]
    (by decide) (by decide)
  have h2 := registerAndLogin_eq_ok cEnvSubmit500 cState cUser [1, 2, 3, 4]
    (by decide) (by decide)
  refine ⟨?_, ?_, by decide⟩
  · exact h.2.2.2.2 (LoginActions.authenticate cEnvSubmit500
      (RegisterActions.register cEnvSubmit500 cState cUser [1, 2, 3, 4]).state
      cUser true) (by rw [h2]) (by decide)
  · rw [h2]

theorem specRegisterSequence_eq_ok (env : ServerEnv) (st : LoginState)
    (user : AuthUser) (randomSalt : Nat → Bytes)
    (hok0 : (env.argon2 user.password (randomSalt 0)).1 = ARGON2_OK)
    (hreg : env.registerStatus = 201) :
    specRegisterSequence env st user randomSalt =
      (RegisterActions.register env st user (randomSalt 0),
       some (RegisterActions.generateMasterKeypair env
         (RegisterActions.register env st user (randomSalt 0)).state
         user.password (randomSalt 1) 4096)) := by
  simp [specRegisterSequence, register_eq_ok env st user (randomSalt 0) hok0 hreg]

/-- C2: in the registration flow (driver modelled from the spec, which draws
both salts fresh from the client randomness source), the salt passed to
generateMasterKeypair is distinct from the salt used to derive the
authentication key in register: the single hash request of register carries
draw 0, the single hash request of generateMasterKeypair carries draw 1, the
two requests carry the same cost parameters, and the two salts differ. -/
theorem C2_distinct_salts (env : ServerEnv) (st : LoginState) (user : AuthUser)
    (randomSalt : Nat → Bytes)
    (hfresh : randomSalt 0 ≠ randomSalt 1)
    (hok0 : (env.argon2 user.password (randomSalt 0)).1 = ARGON2_OK)
    (hreg : env.registerStatus = 201)
    (r : Outcome Unit) (g : Option (Outcome Unit))
    (hrg : (r, g) = specRegisterSequence env st user randomSalt) :
    workerHashSalts r.trace = [randomSalt 0] ∧
    g = some (RegisterActions.generateMasterKeypair env r.state
      user.password (randomSalt 1) 4096) ∧
    workerHashSalts (RegisterActions.generateMasterKeypair env r.state
      user.password (randomSalt 1) 4096).trace = [randomSalt 1] ∧
    workerHashCosts (RegisterActions.generateMasterKeypair env r.state
      user.password (randomSalt 1) 4096).trace = workerHashCosts r.trace ∧
    randomSalt 0 ≠ randomSalt 1 := by
  rw [specRegisterSequence_eq_ok env st user randomSalt hok0 hreg, Prod.mk.injEq] at hrg
  obtain ⟨hr, hg⟩ := hrg
  subst hr
  subst hg
  have hgen := generate_hashRequests env
    (RegisterActions.register env st user (randomSalt 0)).state
    user.password (randomSalt 1) 4096
  refine ⟨?_, rfl, hgen.1, ?_, hfresh⟩
  · rw [register_eq_ok env st user (randomSalt 0) hok0 hreg]
    simp [workerHashSalts]
  · rw [hgen.2, register_eq_ok env st user (randomSalt 0) hok0 hreg]
    simp [workerHashCosts]

/-- Concrete client randomness source: two distinct 4-byte draws. -/
def cRandomSalt : Nat → Bytes := fun n => if n = 0 then [1, 2, 3, 4] else [5, 6, 7, 8]

/-- Witness for C2 at the concrete environment and randomness source: register
hashes with draw 0, the master-keypair generation hashes with draw 1, and the
draws differ. -/
theorem C2_distinct_salts_witness :
    workerHashSalts (specRegisterSequence cEnv cState cUser cRandomSalt).1.trace
      = [[1, 2, 3, 4]] ∧
    workerHashSalts (RegisterActions.generateMasterKeypair cEnv
        (specRegisterSequence cEnv cState cUser cRandomSalt).1.state
        cUser.password (cRandomSalt 1) 4096).trace
      = [[5, 6, 7, 8]] ∧
    cRandomSalt 0 ≠ cRandomSalt 1 := by
  have h := C2_distinct_salts cEnv cState cUser cRandomSalt
    (by decide) (by decide) (by decide) _ _ rfl
  exact ⟨h.1, h.2.2.1, h.2.2.2.2⟩

/-- C3: the master private key is never transmitted in plaintext form: a
successful generateMasterKeypair produces exactly the trace consisting of the
temp-key hash request, one upload carrying only the exported public key, the
wrapped private-key ciphertext, the wrap salt and the hash parameters, and a
local IndexedDB put of the plaintext handles keyed by the user identity; a
successful retrieveMasterKeypair produces exactly the trace of the fetch, the
temp-key hash request, the console log of the (still wrapped) private key,
and the IndexedDB put of the unwrapped handle keyed by the user identity, and
its trace contains no upload of any kind. -/
theorem C3_private_key_custody (env : ServerEnv) (st : LoginState)
    (password : String) (salt : Bytes) (keysize : Nat) (tok : String) (u : User)
    (hok : (env.argon2 password salt).1 = ARGON2_OK)
    (hcsrf : st.csrfToken = some tok)
    (hpost : env.keysPostStatus = 201)
    (huser : st.userStore = some u)
    (h200 : env.keysGetStatus = 200)
    (hok2 : (env.argon2 password env.keysGetBody.hashSalt).1 = ARGON2_OK) :
    (RegisterActions.generateMasterKeypair env st password salt keysize).trace =
      [.workerHash password salt st.hashParams.timeCost st.hashParams.memoryCost
         st.hashParams.threads AUTHKEY_SIZE,
       .postKeys (env.exportPublicKey (env.generateKeypair keysize).1)
         (env.wrapPrivateKey (env.generateKeypair keysize).2
           (env.argon2 password salt).2)
         salt st.hashParams,
       .idbAddKeys u.id (env.generateKeypair keysize).1 (env.generateKeypair keysize).2] ∧
    (LoginActions.retrieveMasterKeypair env st password).trace =
      [.getKeys,
       .workerHash password env.keysGetBody.hashSalt
         env.keysGetBody.hashParams.timeCost env.keysGetBody.hashParams.memoryCost
         env.keysGetBody.hashParams.threads AUTHKEY_SIZE,
       .consoleLog env.keysGetBody.privateKey,
       .idbAddKeys u.id (env.importPublicKey env.keysGetBody.publicKey)
         (env.unwrapPrivateKey env.keysGetBody.privateKey
           (env.argon2 password env.keysGetBody.hashSalt).2)] ∧
    (∀ pk sk hs hp, Event.postKeys pk sk hs hp ∉
      (LoginActions.retrieveMasterKeypair env st password).trace) := by
  refine ⟨?_, ?_, ?_⟩
  · rw [generate_eq_ok env st password salt keysize tok hok hcsrf hpost]
    simp [huser]
  · rw [retrieve_eq_ok env st password h200 hok2]
    simp [huser]
  · intro pk sk hs hp
    rw [retrieve_eq_ok env st password h200 hok2]
    simp

/-- Witness for C3 at the concrete environment: the upload carries the
exported public key and the wrap ciphertext only, the IndexedDB puts are
keyed by the user id, and the retrieval trace contains no upload. -/
theorem C3_private_key_custody_witness :
    (RegisterActions.generateMasterKeypair cEnv cState "correct horse"
        [5, 6, 7, 8] 4096).trace =
      [Event.workerHash "correct horse" [5, 6, 7, 8] 1 (128 * 1024) 1 32,
       Event.postKeys "spki" "wrapped" [5, 6, 7, 8] defaultHashParams,
       Event.idbAddKeys "u1" 11 12] ∧
    (LoginActions.retrieveMasterKeypair cEnv cState "correct horse").trace =
      [Event.getKeys,
       Event.workerHash "correct horse" [9, 9, 9, 9] 3 2048 1 32,
       Event.consoleLog "wrapped",
       Event.idbAddKeys "u1" 11 12] ∧
    Event.postKeys "spki" "wrapped" [9, 9, 9, 9] cEnv.keysGetBody.hashParams ∉
      (LoginActions.retrieveMasterKeypair cEnv cState "correct horse").trace := by
  have h := C3_private_key_custody cEnv cState "correct horse" [5, 6, 7, 8] 4096
    "tok0" { email := "a@b.com", id := "u1" }
    (by decide) (by decide) (by decide) (by decide) (by decide) (by decide)
  exact ⟨h.1.trans (by decide), h.2.1.trans (by decide),
    h.2.2 "spki" "wrapped" [9, 9, 9, 9] cEnv.keysGetBody.hashParams⟩
